import Mathlib

/-!
Verification of the generation/fallback orchestration core of the
meta-prompt-generator repository.

The development shallowly embeds the Python sources:
* `src/prompt_generator.py` — `MetaPromptGenerator` (query enhancement,
  fallback template selection, backup-model retry sweep, orchestration,
  post-processing);
* `src/llm_client.py` — `LLMClient.generate_prompt` (response handling);
* `src/config.py` — the `BACKUP_MODELS` / `OPENROUTER_MODEL` constants.

Python strings are embedded as Lean `String` (operated on through their
`List Char` contents).  `str.replace` (which replaces every non-overlapping
occurrence, scanning left to right and not rescanning replacement text) is
embedded as `replaceAll`.  The `in` operator on strings is substring
containment, embedded as `strContains` (list infix `<:+:`).
Effectful collaborators are passed explicitly: the remote completion call is
a function `call : String → String → Except Unit String` from (current model,
user message) to either a raised exception (`Except.error`) or returned text
(`Except.ok`); the template store (`_load_template`) is a function
`store : String → Option String`.  The mutable `llm_client.model` field is
threaded as explicit state: functions that may reassign it return the final
value of the field alongside their result.
-/

set_option maxRecDepth 8000

namespace MetaPromptGen

/-- Python `str.lower`, embedded characterwise (`Char.toLower`; the texts the
program matches on are ASCII). -/
def lowerStr (s : String) : String := ⟨s.data.map Char.toLower⟩

/-- Python `needle in hay` on strings: substring containment. -/
def strContains (needle hay : String) : Prop := needle.data <:+: hay.data

instance (n h : String) : Decidable (strContains n h) :=
  inferInstanceAs (Decidable (n.data <:+: h.data))

/-- Fueled worker for `replaceAll`.  One unit of fuel is spent per step, and a
step always consumes at least one character of the input, so fuel
`l.length` suffices; the fuel makes the recursion structural. -/
def replaceAllAux (pat rep : List Char) : Nat → List Char → List Char
  | _, [] => []
  | 0, l => l
  | n + 1, c :: cs =>
    if pat.isPrefixOf (c :: cs) then
      rep ++ replaceAllAux pat rep n (cs.drop (pat.length - 1))
    else
      c :: replaceAllAux pat rep n cs

/-- Python `s.replace(pat, rep)`: replace every non-overlapping occurrence of
`pat`, scanning left to right; the text just inserted for a replacement is
not rescanned. -/
def replaceAll (pat rep l : List Char) : List Char :=
  replaceAllAux pat rep l.length l

/-- Replace only the first occurrence of `pat` (used to state the claim's
reading of the post-processing step, not by the embedded code). -/
def replaceFirst (pat rep : List Char) : List Char → List Char
  | [] => []
  | c :: cs =>
    if pat.isPrefixOf (c :: cs) then rep ++ cs.drop (pat.length - 1)
    else c :: replaceFirst pat rep cs

/-- The literal placeholder token `{file_content}`. -/
def placeholderToken : String := "{file_content}"

def phrase1 : String := "the document"

def replacement1 : String := "the document provided in {file_content}"

def phrase2 : String := "the input document"

def replacement2 : String := "the input document provided in {file_content}"

def phrase3 : String := "the provided document"

def replacement3 : String := "the provided document in {file_content}"

/-- The three successive `str.replace` calls of
`MetaPromptGenerator.post_process_prompt` (lines 207–209). -/
def ppChain (l : List Char) : List Char :=
  replaceAll phrase3.data replacement3.data
    (replaceAll phrase2.data replacement2.data
      (replaceAll phrase1.data replacement1.data l))

/-- `MetaPromptGenerator.post_process_prompt` (prompt_generator.py 196–211):
if `{file_content}` already occurs, return the prompt unchanged; otherwise
run the three replacements in order and return the result. -/
def post_process_prompt (prompt : String) : String :=
  if strContains placeholderToken prompt then prompt
  else ⟨ppChain prompt.data⟩

/-- The reading of `post_process_prompt` stated by the specification: replace
only the *first* occurrence of each phrase, and try a later phrase only when
the earlier one was absent.  (Stated for comparison with the embedded code;
the code itself is `post_process_prompt` above.) -/
def post_process_prompt_claim (prompt : String) : String :=
  if strContains placeholderToken prompt then prompt
  else if strContains phrase1 prompt then
    ⟨replaceFirst phrase1.data replacement1.data prompt.data⟩
  else if strContains phrase2 prompt then
    ⟨replaceFirst phrase2.data replacement2.data prompt.data⟩
  else if strContains phrase3 prompt then
    ⟨replaceFirst phrase3.data replacement3.data prompt.data⟩
  else prompt

/-! ## Configuration (config.py) -/

/-- `OPENROUTER_MODEL` (config.py line 12). -/
def OPENROUTER_MODEL : String := "google/gemini-2.5-pro-exp-03-25:free"

/-- `BACKUP_MODELS` (config.py lines 15–20). -/
def BACKUP_MODELS : List String :=
  ["google/gemini-2.5-pro-exp-03-25:free",
   "openrouter/quasar-alpha",
   "deepseek/deepseek-chat-v3-0324:free",
   "meta-llama/llama-4-maverick:free"]

/-! ## Completion service client (llm_client.py) -/

/-- `choices[i]` of a parsed response body: `content` is the value reached by
`choice['message']['content']`, `none` when that path is missing (a Python
`KeyError` on access). -/
structure ChoiceMessage where
  content : Option String

/-- A parsed response body; `choices = none` models a JSON object with no
`'choices'` key. -/
structure ResponseBody where
  choices : Option (List ChoiceMessage)

/-- An HTTP response as `LLMClient.generate_prompt` consumes it:
status code, raw text, and the parsed JSON body (`none` when
`response.json()` raises on a malformed body). -/
structure HTTPResponse where
  status_code : Nat
  text : String
  body : Option ResponseBody

/-- `LLMClient.generate_prompt` (llm_client.py 41–116), given the outcome of
`requests.post` (`Except.error` = transport exception, re-raised by the
`except RequestException: raise` arm).  A non-200 status returns the
`"Error generating prompt: <status> - <text>"` sentinel (line 92).  On 200:
a body that fails to parse raises; a present, non-empty `choices` list has
`choices[0]['message']['content']` extracted, raising (`KeyError`,
re-raised at line 113) when the path is missing; otherwise — `'choices'`
absent or empty — line 103 returns the
`"Error: Unexpected response format from OpenRouter API"` string. -/
def llm_generate_prompt (net : Except Unit HTTPResponse) : Except Unit String :=
  match net with
  | Except.error e => Except.error e
  | Except.ok response =>
    if response.status_code ≠ 200 then
      Except.ok ("Error generating prompt: " ++ toString response.status_code
        ++ " - " ++ response.text)
    else
      match response.body with
      | none => Except.error ()
      | some respData =>
        match respData.choices with
        | some (choice :: _) =>
          match choice.content with
          | some generatedText => Except.ok generatedText
          | none => Except.error ()
        | some [] => Except.ok "Error: Unexpected response format from OpenRouter API"
        | none => Except.ok "Error: Unexpected response format from OpenRouter API"

/-! ## Meta prompt generator (prompt_generator.py)

The generator's calls to `self.llm_client.generate_prompt` always pass the
fixed `META_SYSTEM_MESSAGE` and temperature 0.5, so the completion
collaborator is abstracted as `call : String → String → Except Unit String`
taking the current value of the mutable `llm_client.model` field and the
user message; `Except.error` is a raised exception.  `_load_template` is
abstracted as `store : String → Option String` (`none` = file absent). -/

/-- The failure marker tested by `"Error generating prompt" in generated_prompt`
(prompt_generator.py lines 150 and 185). -/
def failureSentinel : String := "Error generating prompt"

/-- Text of the enhancement f-string before the interpolated `user_query`. -/
def enhancePrefix : String :=
  "\nI need you to create a detailed prompt for a data extraction task based on the following requirement:\n\n\""

/-- Text of the enhancement f-string after the interpolated `user_query`. -/
def enhanceSuffix : String :=
  "\"\n\nThe prompt you generate should:\n1. Instruct the model to carefully analyze the entire document provided in {file_content}\n2. Specify all data fields that need to be extracted as mentioned in the requirement\n3. Provide clear instructions on the expected output format (JSON)\n4. Include guidance on handling missing or unclear information\n5. Include at least one example of the expected output format\n\nPlease generate the complete prompt that I can use with an LLM to extract the specified data.\n"

/-- `MetaPromptGenerator._enhance_user_query` (prompt_generator.py 33–56):
the f-string wrapper around the raw task description. -/
def enhance_user_query (user_query : String) : String :=
  enhancePrefix ++ user_query ++ enhanceSuffix

/-- Text of the generic fallback f-string before the interpolated query. -/
def genericPrefix : String :=
  "You are a data extraction assistant. Your task is to carefully analyze the document provided in {file_content} and extract the following information in a structured JSON format:\n\n"

/-- Text of the generic fallback f-string after the interpolated query. -/
def genericSuffix : String :=
  "\n\nFormat your response as a JSON object with the appropriate structure for the requested data.\n\nGuidelines:\n1. If certain information is not present in the document, use null for that field or omit the field entirely.\n2. Convert all monetary values to numbers (not strings).\n3. Use consistent date formatting (DD-MM-YYYY).\n4. If you\x27re uncertain about any information, include a \"confidence\" field with a value between 0 and 1.\n5. Extract the data exactly as it appears without making assumptions or adding information not present in the document.\n6. Only include the JSON in your response, with no additional explanation or commentary.\n"

/-- The generic synthesized fallback template (prompt_generator.py 107–120),
the f-string embedding the query it was handed. -/
def genericFallbackText (user_query : String) : String :=
  genericPrefix ++ user_query ++ genericSuffix

/-- `MetaPromptGenerator._generate_fallback_prompt` (prompt_generator.py
77–120).  `if template:` is Python truthiness: an absent (`None`) template
and a loaded empty string both fall through to the generic text, past the
whole `elif` chain. -/
def generate_fallback_prompt (store : String → Option String)
    (user_query : String) : String :=
  let query_lower := lowerStr user_query
  if strContains "invoice" query_lower ∨ strContains "bill" query_lower ∨
      strContains "receipt" query_lower then
    match store "invoice_template.txt" with
    | some t => if t = "" then genericFallbackText user_query else t
    | none => genericFallbackText user_query
  else if strContains "email" query_lower ∨ strContains "message" query_lower then
    match store "email_template.txt" with
    | some t => if t = "" then genericFallbackText user_query else t
    | none => genericFallbackText user_query
  else if strContains "legal" query_lower ∨ strContains "contract" query_lower ∨
      strContains "agreement" query_lower then
    match store "legal_template.txt" with
    | some t => if t = "" then genericFallbackText user_query else t
    | none => genericFallbackText user_query
  else genericFallbackText user_query

/-- What rule 1–3 of the fallback classifier resolves to once its keyword
test has matched: the stored template when present and non-empty, else the
generic synthesized text. -/
def templateOrGeneric (store : String → Option String)
    (name user_query : String) : String :=
  match store name with
  | some t => if t = "" then genericFallbackText user_query else t
  | none => genericFallbackText user_query

/-- Outcome of `_try_with_backup_models`: the returned prompt, the value the
mutable `llm_client.model` field holds when the method returns, and the
models on which `llm_client.generate_prompt` was actually invoked, in
order. -/
structure SweepOut where
  prompt : String
  finalModel : String
  called : List String
  deriving DecidableEq, Repr

/-- The `for model in BACKUP_MODELS` loop of
`MetaPromptGenerator._try_with_backup_models` (prompt_generator.py 122–161)
over an explicit list: skip a model equal to `original_model`; otherwise set
it as current and call; return the text as soon as it is exception-free and
does not contain the failure sentinel (leaving the current model set to the
successful backup); when the list is exhausted, reset the current model to
`original_model` and return the fallback prompt for the query the sweep was
handed. -/
def try_with_backup_models_list (call : String → String → Except Unit String)
    (store : String → Option String) (original_model user_query : String) :
    List String → SweepOut
  | [] => ⟨generate_fallback_prompt store user_query, original_model, []⟩
  | model :: rest =>
    if model = original_model then
      try_with_backup_models_list call store original_model user_query rest
    else
      match call model user_query with
      | Except.error _ =>
        let r := try_with_backup_models_list call store original_model user_query rest
        ⟨r.prompt, r.finalModel, model :: r.called⟩
      | Except.ok generated_prompt =>
        if strContains failureSentinel generated_prompt then
          let r := try_with_backup_models_list call store original_model user_query rest
          ⟨r.prompt, r.finalModel, model :: r.called⟩
        else ⟨generated_prompt, model, [model]⟩

/-- `MetaPromptGenerator._try_with_backup_models`: the loop above over the
configured `BACKUP_MODELS`; `original_model` is the value of
`self.llm_client.model` on entry. -/
def try_with_backup_models (call : String → String → Except Unit String)
    (store : String → Option String) (original_model user_query : String) :
    SweepOut :=
  try_with_backup_models_list call store original_model user_query BACKUP_MODELS

/-- Outcome of `generate_extraction_prompt`: the returned prompt and the
value of the `llm_client.model` field after the call. -/
structure GenOut where
  prompt : String
  finalModel : String
  deriving DecidableEq, Repr

/-- `MetaPromptGenerator.generate_extraction_prompt` (prompt_generator.py
163–194), with `model` the value of `self.llm_client.model` on entry:
enhance the query; call the client; on a raised exception or on returned
text containing the failure sentinel, delegate to the backup sweep (with the
*enhanced* query); otherwise return the generated text. -/
def generate_extraction_prompt (call : String → String → Except Unit String)
    (store : String → Option String) (model user_query : String) : GenOut :=
  let enhanced_query := enhance_user_query user_query
  match call model enhanced_query with
  | Except.error _ =>
    let r := try_with_backup_models call store model enhanced_query
    ⟨r.prompt, r.finalModel⟩
  | Except.ok generated_prompt =>
    if strContains failureSentinel generated_prompt then
      let r := try_with_backup_models call store model enhanced_query
      ⟨r.prompt, r.finalModel⟩
    else ⟨generated_prompt, model⟩

/-- A completion attempt counts as failed for the orchestrator when it raises
or when its text contains the failure sentinel. -/
def attemptFails (r : Except Unit String) : Prop :=
  match r with
  | Except.error _ => True
  | Except.ok s => strContains failureSentinel s

instance : (r : Except Unit String) → Decidable (attemptFails r)
  | Except.error _ => isTrue trivial
  | Except.ok s => inferInstanceAs (Decidable (strContains failureSentinel s))

/-! ## Concrete collaborators used to instantiate the theorems -/

/-- A store with no templates at all. -/
def storeEmpty : String → Option String := fun _ => none

/-- A store holding only the e-mail template. -/
def storeEmailOnly : String → Option String := fun name =>
  if name = "email_template.txt" then some "EMAIL TEMPLATE" else none

/-- A completion capability whose every call raises. -/
def callAlwaysRaise : String → String → Except Unit String :=
  fun _ _ => Except.error ()

/-- A completion capability that always returns the same sentinel-free text
mentioning "the document". -/
def callTheDocument : String → String → Except Unit String :=
  fun _ _ => Except.ok "Analyze the document and extract data."

/-- A completion capability on which only the model
`"openrouter/quasar-alpha"` succeeds; every other model raises. -/
def callQuasarSucceeds : String → String → Except Unit String :=
  fun model _ =>
    if model = "openrouter/quasar-alpha" then Except.ok "BACKUP PROMPT"
    else Except.error ()

/-- A completion capability whose primary-model call genuinely succeeds but
whose returned prose mentions the failure-sentinel phrase; all other models
raise. -/
def callMentionsSentinel : String → String → Except Unit String :=
  fun model _ =>
    if model = OPENROUTER_MODEL then
      Except.ok "A user guide to the Error generating prompt message"
    else Except.error ()

/-- A completion capability for exercising the sweep on an explicit model
list: `"backup-two"` succeeds, every other model returns sentinel text. -/
def callSecondBackupGood : String → String → Except Unit String :=
  fun model _ =>
    if model = "backup-two" then Except.ok "GOOD PROMPT"
    else Except.ok "Error generating prompt: 500 - boom"

/-! ## Lemmas about `replaceAll` -/

theorem replaceAllAux_noop (pat rep : List Char) :
    ∀ (n : Nat) (l : List Char), ¬ pat <:+: l → replaceAllAux pat rep n l = l := by
  intro n
  induction n with
  | zero => intro l _; cases l <;> rfl
  | succ n ih =>
    intro l hl
    cases l with
    | nil => rfl
    | cons c cs =>
      have hpre : ¬ pat.isPrefixOf (c :: cs) := by
        intro hp
        exact hl (List.IsPrefix.isInfix (List.isPrefixOf_iff_prefix.mp hp))
      have htail : ¬ pat <:+: cs := fun h => hl (List.infix_cons h)
      simp only [replaceAllAux, hpre, if_false, Bool.false_eq_true]
      exact congrArg (c :: ·) (ih cs htail)

theorem replaceAll_noop (pat rep l : List Char) (h : ¬ pat <:+: l) :
    replaceAll pat rep l = l :=
  replaceAllAux_noop pat rep l.length l h

theorem replaceAllAux_eq_or_infix (pat rep : List Char) :
    ∀ (n : Nat) (l : List Char),
      replaceAllAux pat rep n l = l ∨ rep <:+: replaceAllAux pat rep n l := by
  intro n
  induction n with
  | zero => intro l; left; cases l <;> rfl
  | succ n ih =>
    intro l
    cases l with
    | nil => left; rfl
    | cons c cs =>
      by_cases hpre : pat.isPrefixOf (c :: cs)
      · right
        simp only [replaceAllAux, hpre, if_true]
        exact List.IsPrefix.isInfix (List.prefix_append rep _)
      · simp only [replaceAllAux, hpre, if_false, Bool.false_eq_true]
        rcases ih cs with he | hi
        · left; exact congrArg (c :: ·) he
        · right; exact List.infix_cons hi

theorem replaceAll_eq_or_infix (pat rep l : List Char) :
    replaceAll pat rep l = l ∨ rep <:+: replaceAll pat rep l :=
  replaceAllAux_eq_or_infix pat rep l.length l

theorem placeholder_infix_replacement1 :
    placeholderToken.data <:+: replacement1.data := by decide

theorem placeholder_infix_replacement2 :
    placeholderToken.data <:+: replacement2.data := by decide

theorem placeholder_infix_replacement3 :
    placeholderToken.data <:+: replacement3.data := by decide

/-- A single replacement step whose replacement text contains the placeholder
either leaves the text unchanged or leaves the placeholder in it. -/
theorem replaceAll_step (pat rep l : List Char)
    (hrep : placeholderToken.data <:+: rep) :
    replaceAll pat rep l = l ∨ placeholderToken.data <:+: replaceAll pat rep l := by
  rcases replaceAll_eq_or_infix pat rep l with he | hi
  · exact Or.inl he
  · exact Or.inr (List.IsInfix.trans hrep hi)

/-- The three chained replacements either leave the text unchanged or leave
the placeholder token in it. -/
theorem ppChain_eq_or_infix (l : List Char) :
    ppChain l = l ∨ placeholderToken.data <:+: ppChain l := by
  unfold ppChain
  rcases replaceAll_step phrase1.data replacement1.data l
      placeholder_infix_replacement1 with h1 | h1
  · rw [h1]
    rcases replaceAll_step phrase2.data replacement2.data l
        placeholder_infix_replacement2 with h2 | h2
    · rw [h2]
      exact replaceAll_step phrase3.data replacement3.data l
        placeholder_infix_replacement3
    · right
      rcases replaceAll_step phrase3.data replacement3.data
          (replaceAll phrase2.data replacement2.data l)
          placeholder_infix_replacement3 with h3 | h3
      · rw [h3]; exact h2
      · exact h3
  · right
    rcases replaceAll_step phrase3.data replacement3.data
        (replaceAll phrase2.data replacement2.data
          (replaceAll phrase1.data replacement1.data l))
        placeholder_infix_replacement3 with h3 | h3
    · rw [h3]
      rcases replaceAll_step phrase2.data replacement2.data
          (replaceAll phrase1.data replacement1.data l)
          placeholder_infix_replacement2 with h2 | h2
      · rw [h2]; exact h1
      · exact h2
    · exact h3

/-! ## Lemmas about the backup sweep and the orchestrator -/

/-- A primary attempt that returns sentinel-free text is returned as is and
the model field is untouched. -/
theorem gen_primary_ok (call : String → String → Except Unit String)
    (store : String → Option String) (model user_query g : String)
    (hcall : call model (enhance_user_query user_query) = Except.ok g)
    (hok : ¬ strContains failureSentinel g) :
    generate_extraction_prompt call store model user_query = ⟨g, model⟩ := by
  simp [generate_extraction_prompt, hcall, hok]

/-- A failed primary attempt (raised or sentinel-carrying) delegates to the
backup sweep on the enhanced query. -/
theorem gen_primary_fails (call : String → String → Except Unit String)
    (store : String → Option String) (model user_query : String)
    (hfail : attemptFails (call model (enhance_user_query user_query))) :
    generate_extraction_prompt call store model user_query =
      ⟨(try_with_backup_models call store model (enhance_user_query user_query)).prompt,
       (try_with_backup_models call store model (enhance_user_query user_query)).finalModel⟩ := by
  cases hcall : call model (enhance_user_query user_query) with
  | error e => simp [generate_extraction_prompt, hcall]
  | ok g =>
    rw [hcall] at hfail
    have hg : strContains failureSentinel g := hfail
    simp [generate_extraction_prompt, hcall, hg]

/-- When every listed model is either skipped (equal to the original model)
or fails, the sweep falls back: it returns the fallback prompt for the query
it was handed, restores the original model, and has called exactly the
non-skipped models in order. -/
theorem sweep_all_fail (call : String → String → Except Unit String)
    (store : String → Option String) (original_model user_query : String) :
    ∀ bs : List String,
      (∀ m ∈ bs, m = original_model ∨ attemptFails (call m user_query)) →
      try_with_backup_models_list call store original_model user_query bs =
        ⟨generate_fallback_prompt store user_query, original_model,
         bs.filter (fun x => x != original_model)⟩ := by
  intro bs
  induction bs with
  | nil => intro _; rfl
  | cons m rest ih =>
    intro h
    have hrest := ih (fun m' hm' => h m' (List.mem_cons_of_mem m hm'))
    by_cases hm : m = original_model
    · subst hm
      simp [try_with_backup_models_list, hrest]
    · have hf : attemptFails (call m user_query) :=
        (h m (List.mem_cons_self m rest)).resolve_left hm
      have hbne : (m != original_model) = true := bne_iff_ne.mpr hm
      cases hcall : call m user_query with
      | error e =>
        simp [try_with_backup_models_list, hm, hcall, List.filter_cons, hbne, hrest]
      | ok g =>
        rw [hcall] at hf
        have hg : strContains failureSentinel g := hf
        simp [try_with_backup_models_list, hm, hcall, hg, List.filter_cons,
          hbne, hrest]

/-- When the prefix `bs₁` of the list consists of skipped or failing models
and `m` is a non-skipped model whose call returns sentinel-free text `g`,
the sweep stops at `m`: it returns `g`, leaves the current model set to `m`,
and has called exactly the non-skipped models of `bs₁` followed by `m` —
nothing after `m` is called. -/
theorem sweep_first_success (call : String → String → Except Unit String)
    (store : String → Option String) (original_model user_query m g : String)
    (bs₂ : List String) (hm : m ≠ original_model)
    (hcall : call m user_query = Except.ok g)
    (hok : ¬ strContains failureSentinel g) :
    ∀ bs₁ : List String,
      (∀ m' ∈ bs₁, m' = original_model ∨ attemptFails (call m' user_query)) →
      try_with_backup_models_list call store original_model user_query
          (bs₁ ++ m :: bs₂) =
        ⟨g, m, bs₁.filter (fun x => x != original_model) ++ [m]⟩ := by
  intro bs₁
  induction bs₁ with
  | nil =>
    intro _
    simp [try_with_backup_models_list, hm, hcall, hok]
  | cons m' rest ih =>
    intro h
    have hrest := ih (fun x hx => h x (List.mem_cons_of_mem m' hx))
    by_cases hm' : m' = original_model
    · subst hm'
      simp [try_with_backup_models_list, hrest]
    · have hf : attemptFails (call m' user_query) :=
        (h m' (List.mem_cons_self m' rest)).resolve_left hm'
      have hbne : (m' != original_model) = true := bne_iff_ne.mpr hm'
      cases hcall' : call m' user_query with
      | error e =>
        simp [try_with_backup_models_list, hm', hcall', List.filter_cons,
          hbne, hrest]
      | ok g' =>
        rw [hcall'] at hf
        have hg' : strContains failureSentinel g' := hf
        simp [try_with_backup_models_list, hm', hcall', hg', List.filter_cons,
          hbne, hrest]

/-! ## Auxiliary facts about the fixed texts -/

/-- The enhancement wrapper never returns its argument: it strictly extends
it. -/
theorem enhance_ne_self (q : String) : enhance_user_query q ≠ q := by
  intro h
  have hl := congrArg String.length h
  simp only [enhance_user_query, String.length_append] at hl
  have hp : 0 < enhancePrefix.length := by decide
  omega

/-- The generic synthesized fallback text determines the query embedded in
it. -/
theorem genericFallbackText_inj {q₁ q₂ : String}
    (h : genericFallbackText q₁ = genericFallbackText q₂) : q₁ = q₂ := by
  have hd := congrArg String.data h
  simp only [genericFallbackText, String.data_append] at hd
  exact String.ext (List.append_cancel_left (List.append_cancel_right hd))

/-- With an empty template store, every classification branch of the fallback
selector resolves to the generic synthesized text. -/
theorem fallback_storeEmpty (q : String) :
    generate_fallback_prompt storeEmpty q = genericFallbackText q := by
  unfold generate_fallback_prompt storeEmpty
  simp

/-- Shared composition: failed primary plus all-failing backups resolves the
returned prompt to the fallback for the enhanced query. -/
theorem gen_exhaustion_aux (call : String → String → Except Unit String)
    (store : String → Option String) (model user_query : String)
    (hp : attemptFails (call model (enhance_user_query user_query)))
    (hb : ∀ m ∈ BACKUP_MODELS, attemptFails (call m (enhance_user_query user_query))) :
    (generate_extraction_prompt call store model user_query).prompt =
      generate_fallback_prompt store (enhance_user_query user_query) := by
  have hs := sweep_all_fail call store model (enhance_user_query user_query)
    BACKUP_MODELS (fun m hm => Or.inr (hb m hm))
  simp [gen_primary_fails call store model user_query hp,
    try_with_backup_models, hs]

/-! ## The claims -/

/-- C7: `post_process_prompt` is idempotent — applying it twice yields the
same text as applying it once. -/
theorem post_process_prompt_idempotent (p : String) :
    post_process_prompt (post_process_prompt p) = post_process_prompt p := by
  unfold post_process_prompt
  by_cases h : strContains placeholderToken p
  · simp [h]
  · simp only [h, if_false]
    by_cases h2 : strContains placeholderToken (⟨ppChain p.data⟩ : String)
    · simp [h2]
    · simp only [h2, if_false]
      rcases ppChain_eq_or_infix p.data with he | hi
      · show (⟨ppChain (ppChain p.data)⟩ : String) = ⟨ppChain p.data⟩
        rw [he, he]
      · exact absurd hi h2

/-- C5 counterexample: on a text containing "the document" twice, the code
(Python `str.replace`) rewrites both occurrences, while the claim's
first-occurrence-only reading rewrites just the first, so the two
disagree. -/
theorem post_process_first_occurrence_counterexample :
    post_process_prompt "see the document and the document" ≠
        post_process_prompt_claim "see the document and the document" ∧
    post_process_prompt "see the document and the document" =
        "see the document provided in {file_content} and the document provided in {file_content}" ∧
    post_process_prompt_claim "see the document and the document" =
        "see the document provided in {file_content} and the document" := by
  refine ⟨by decide, by decide, by decide⟩

/-- C5 amended: if `{file_content}` occurs, the text is returned unchanged;
otherwise the three replacements are applied unconditionally in sequence,
each one rewriting *every* occurrence of its phrase (and acting as the
identity when its phrase is absent); when none of the three phrases occurs
the text is returned unmodified. -/
theorem post_process_prompt_description (p : String) :
    (strContains placeholderToken p → post_process_prompt p = p) ∧
    (¬ strContains placeholderToken p →
      (post_process_prompt p).data = ppChain p.data) ∧
    (¬ strContains placeholderToken p → ¬ strContains phrase1 p →
      ¬ strContains phrase2 p → ¬ strContains phrase3 p →
      post_process_prompt p = p) := by
  refine ⟨fun h => by simp [post_process_prompt, h],
    fun h => by simp [post_process_prompt, h], fun h h1 h2 h3 => ?_⟩
  have hchain : ppChain p.data = p.data := by
    unfold ppChain
    rw [replaceAll_noop phrase1.data replacement1.data p.data h1,
      replaceAll_noop phrase2.data replacement2.data p.data h2,
      replaceAll_noop phrase3.data replacement3.data p.data h3]
  have hpp : post_process_prompt p = ⟨ppChain p.data⟩ := by
    simp [post_process_prompt, h]
  rw [hpp, hchain]

/-- Witness for C5's amended statement at a concrete input with two
occurrences of "the document". -/
theorem post_process_prompt_description_witness :
    ¬ strContains placeholderToken "a the document b the document" ∧
    (post_process_prompt "a the document b the document").data =
      ppChain ("a the document b the document").data :=
  ⟨by decide,
   (post_process_prompt_description "a the document b the document").2.1 (by decide)⟩

/-- C4 counterexample: a 200 response whose parsed body has no `'choices'`
key makes `LLMClient.generate_prompt` return the
"Error: Unexpected response format from OpenRouter API" sentinel string —
it does not propagate a fault. -/
theorem llm_missing_choices_counterexample :
    llm_generate_prompt (Except.ok ⟨200, "", some ⟨none⟩⟩) =
      Except.ok "Error: Unexpected response format from OpenRouter API" := rfl

/-- C4 amended: when the remote call completes with a 200 status and a
parseable body in which `'choices'` is absent or empty, the client returns
the sentinel string "Error: Unexpected response format from OpenRouter API"
rather than raising. -/
theorem llm_missing_choices_returns_sentinel (resp : HTTPResponse)
    (body : ResponseBody) (h200 : resp.status_code = 200)
    (hbody : resp.body = some body)
    (hch : body.choices = none ∨ body.choices = some []) :
    llm_generate_prompt (Except.ok resp) =
      Except.ok "Error: Unexpected response format from OpenRouter API" := by
  cases resp with
  | mk st tx bd =>
    simp only at h200 hbody
    subst h200
    subst hbody
    rcases hch with h | h <;> simp [llm_generate_prompt, h]

/-- Witness for C4's amended statement: a 200 response with an empty
`choices` list. -/
theorem llm_missing_choices_returns_sentinel_witness :
    llm_generate_prompt (Except.ok ⟨200, "ok", some ⟨some []⟩⟩) =
      Except.ok "Error: Unexpected response format from OpenRouter API" :=
  llm_missing_choices_returns_sentinel ⟨200, "ok", some ⟨some []⟩⟩
    ⟨some []⟩ rfl rfl (Or.inr rfl)

/-- C1: when the primary attempt and every backup attempt fail — by raising
or by returning sentinel-carrying text — `generate_extraction_prompt`
propagates no fault (it is a total function of the modelled collaborators)
and returns the Fallback Template Selector's text. -/
theorem generate_total_exhaustion_fallback
    (call : String → String → Except Unit String)
    (store : String → Option String) (model user_query : String)
    (hp : attemptFails (call model (enhance_user_query user_query)))
    (hb : ∀ m ∈ BACKUP_MODELS, attemptFails (call m (enhance_user_query user_query))) :
    (generate_extraction_prompt call store model user_query).prompt =
      generate_fallback_prompt store (enhance_user_query user_query) :=
  gen_exhaustion_aux call store model user_query hp hb

/-- Witness for C1: everything raises, the returned text is the fallback
selector's output. -/
theorem generate_total_exhaustion_fallback_witness :
    (generate_extraction_prompt callAlwaysRaise storeEmpty OPENROUTER_MODEL
        "invoice data").prompt =
      generate_fallback_prompt storeEmpty (enhance_user_query "invoice data") :=
  generate_total_exhaustion_fallback callAlwaysRaise storeEmpty OPENROUTER_MODEL
    "invoice data" trivial (fun _ _ => trivial)

/-- C2 counterexample: with every model raising and no stored templates, the
returned text differs from the Fallback Template Selector's output for the
original task description — the fallback is computed from the enhanced
wrapper text instead. -/
theorem generate_exhaustion_not_original_counterexample :
    (generate_extraction_prompt callAlwaysRaise storeEmpty OPENROUTER_MODEL
        "task").prompt ≠
      generate_fallback_prompt storeEmpty "task" := by
  have h1 := gen_exhaustion_aux callAlwaysRaise storeEmpty OPENROUTER_MODEL
    "task" trivial (fun _ _ => trivial)
  rw [h1, fallback_storeEmpty, fallback_storeEmpty]
  intro h
  exact enhance_ne_self "task" (genericFallbackText_inj h)

/-- C2 amended: on total exhaustion the returned text equals the Fallback
Template Selector's output for the *enhanced wrapper text* (which always
differs from the original task description), not for the original task
description. -/
theorem generate_exhaustion_uses_enhanced
    (call : String → String → Except Unit String)
    (store : String → Option String) (model user_query : String)
    (hp : attemptFails (call model (enhance_user_query user_query)))
    (hb : ∀ m ∈ BACKUP_MODELS, attemptFails (call m (enhance_user_query user_query))) :
    (generate_extraction_prompt call store model user_query).prompt =
      generate_fallback_prompt store (enhance_user_query user_query) ∧
    enhance_user_query user_query ≠ user_query :=
  ⟨gen_exhaustion_aux call store model user_query hp hb,
   enhance_ne_self user_query⟩

/-- Witness for C2's amended statement. -/
theorem generate_exhaustion_uses_enhanced_witness :
    (generate_extraction_prompt callAlwaysRaise storeEmpty OPENROUTER_MODEL
        "task").prompt =
      generate_fallback_prompt storeEmpty (enhance_user_query "task") ∧
    enhance_user_query "task" ≠ "task" :=
  generate_exhaustion_uses_enhanced callAlwaysRaise storeEmpty OPENROUTER_MODEL
    "task" trivial (fun _ _ => trivial)

/-- C3 counterexample: the primary attempt returns sentinel-free text lacking
`{file_content}`; `generate_extraction_prompt` returns it verbatim even
though `post_process_prompt` would change it — so the returned text is not
the post-processed text. -/
theorem generate_not_postprocessed_counterexample :
    (generate_extraction_prompt callTheDocument storeEmpty OPENROUTER_MODEL
        "task").prompt = "Analyze the document and extract data." ∧
    post_process_prompt "Analyze the document and extract data." ≠
      "Analyze the document and extract data." := by
  constructor
  · rw [gen_primary_ok callTheDocument storeEmpty OPENROUTER_MODEL "task"
      "Analyze the document and extract data." rfl (by decide)]
  · decide

/-- C3 amended: `generate_extraction_prompt` returns the produced text
without applying `post_process_prompt`; the callers (the CLI entry point and
the API endpoint) apply post-processing separately after it returns. -/
theorem generate_returns_raw_text
    (call : String → String → Except Unit String)
    (store : String → Option String) (model user_query g : String)
    (hcall : call model (enhance_user_query user_query) = Except.ok g)
    (hok : ¬ strContains failureSentinel g) :
    (generate_extraction_prompt call store model user_query).prompt = g := by
  rw [gen_primary_ok call store model user_query g hcall hok]

/-- Witness for C3's amended statement. -/
theorem generate_returns_raw_text_witness :
    (generate_extraction_prompt callTheDocument storeEmpty OPENROUTER_MODEL
        "task").prompt = "Analyze the document and extract data." :=
  generate_returns_raw_text callTheDocument storeEmpty OPENROUTER_MODEL "task"
    "Analyze the document and extract data." rfl (by decide)

/-- C6: once the invoice/bill/receipt keyword rule matches the lower-cased
task description, the fallback resolves to the invoice template when it is
stored (and non-empty) and to the generic synthesized text otherwise —
regardless of whether the e-mail or legal keyword rules would also match,
and never falling through to them. -/
theorem fallback_invoice_first_match (store : String → Option String)
    (user_query : String)
    (h : strContains "invoice" (lowerStr user_query) ∨
         strContains "bill" (lowerStr user_query) ∨
         strContains "receipt" (lowerStr user_query)) :
    generate_fallback_prompt store user_query =
      templateOrGeneric store "invoice_template.txt" user_query := by
  simp [generate_fallback_prompt, templateOrGeneric, h]

/-- Witness for C6: a task description containing both "invoice" and
"email", with the invoice template absent and the e-mail template present,
resolves to the generic synthesized text — not to the e-mail template. -/
theorem fallback_invoice_first_match_witness :
    generate_fallback_prompt storeEmailOnly "invoice email" =
      genericFallbackText "invoice email" := by
  rw [fallback_invoice_first_match storeEmailOnly "invoice email"
    (Or.inl (by decide))]
  rfl

/-- C8 counterexample: when a backup model succeeds mid-sweep, the method
returns before the reset, so after `generate_extraction_prompt` returns the
client's model field holds the successful backup, not the original primary
model. -/
theorem model_not_restored_counterexample :
    (generate_extraction_prompt callQuasarSucceeds storeEmpty OPENROUTER_MODEL
        "task").finalModel ≠ OPENROUTER_MODEL := by
  have hp : attemptFails
      (callQuasarSucceeds OPENROUTER_MODEL (enhance_user_query "task")) := by
    decide
  have hsw := sweep_first_success callQuasarSucceeds storeEmpty OPENROUTER_MODEL
    (enhance_user_query "task") "openrouter/quasar-alpha" "BACKUP PROMPT"
    ["deepseek/deepseek-chat-v3-0324:free", "meta-llama/llama-4-maverick:free"]
    (by decide) rfl (by decide)
    ["google/gemini-2.5-pro-exp-03-25:free"] (by decide)
  have hBM : BACKUP_MODELS =
      ["google/gemini-2.5-pro-exp-03-25:free"] ++ "openrouter/quasar-alpha" ::
        ["deepseek/deepseek-chat-v3-0324:free", "meta-llama/llama-4-maverick:free"] :=
    rfl
  rw [gen_primary_fails callQuasarSucceeds storeEmpty OPENROUTER_MODEL "task" hp]
  show (try_with_backup_models callQuasarSucceeds storeEmpty OPENROUTER_MODEL
    (enhance_user_query "task")).finalModel ≠ OPENROUTER_MODEL
  rw [try_with_backup_models, hBM, hsw]
  decide

/-- C8 amended: the model field is untouched when the primary attempt
succeeds and restored when the sweep exhausts every backup, but when a
backup model succeeds mid-sweep the field retains that backup's identifier
after the call returns. -/
theorem model_field_behavior :
    (∀ (call : String → String → Except Unit String)
        (store : String → Option String) (model user_query g : String),
      call model (enhance_user_query user_query) = Except.ok g →
      ¬ strContains failureSentinel g →
      (generate_extraction_prompt call store model user_query).finalModel = model) ∧
    (∀ (call : String → String → Except Unit String)
        (store : String → Option String) (model user_query : String),
      attemptFails (call model (enhance_user_query user_query)) →
      (∀ m ∈ BACKUP_MODELS, attemptFails (call m (enhance_user_query user_query))) →
      (generate_extraction_prompt call store model user_query).finalModel = model) ∧
    (∀ (call : String → String → Except Unit String)
        (store : String → Option String)
        (original_model user_query m g : String) (bs₁ bs₂ : List String),
      (∀ m' ∈ bs₁, m' = original_model ∨ attemptFails (call m' user_query)) →
      m ≠ original_model → call m user_query = Except.ok g →
      ¬ strContains failureSentinel g →
      (try_with_backup_models_list call store original_model user_query
        (bs₁ ++ m :: bs₂)).finalModel = m) := by
  refine ⟨fun call store model user_query g hcall hok => ?_,
    fun call store model user_query hp hb => ?_,
    fun call store original_model user_query m g bs₁ bs₂ h₁ hm hcall hok => ?_⟩
  · rw [gen_primary_ok call store model user_query g hcall hok]
  · have hs := sweep_all_fail call store model (enhance_user_query user_query)
      BACKUP_MODELS (fun m hm => Or.inr (hb m hm))
    simp [gen_primary_fails call store model user_query hp,
      try_with_backup_models, hs]
  · rw [sweep_first_success call store original_model user_query m g bs₂ hm
      hcall hok bs₁ h₁]

/-- Witness for C8's amended statement: the mid-sweep-success component at a
concrete sweep. -/
theorem model_field_behavior_witness :
    (try_with_backup_models_list callQuasarSucceeds storeEmpty OPENROUTER_MODEL
        "query" (["google/gemini-2.5-pro-exp-03-25:free"] ++
          "openrouter/quasar-alpha" ::
            ["deepseek/deepseek-chat-v3-0324:free",
             "meta-llama/llama-4-maverick:free"])).finalModel =
      "openrouter/quasar-alpha" :=
  model_field_behavior.2.2 callQuasarSucceeds storeEmpty OPENROUTER_MODEL
    "query" "openrouter/quasar-alpha" "BACKUP PROMPT"
    ["google/gemini-2.5-pro-exp-03-25:free"]
    ["deepseek/deepseek-chat-v3-0324:free", "meta-llama/llama-4-maverick:free"]
    (by decide) (by decide) rfl (by decide)

/-- C9: the sweep walks the listed models in order, skips identifiers equal
to the model just tried as primary, returns the first sentinel-free,
non-raising completion, and makes no completion call after that first
success: the called models are exactly the non-skipped failing prefix
followed by the successful one. -/
theorem backup_sweep_order_skip_first_success
    (call : String → String → Except Unit String)
    (store : String → Option String)
    (original_model user_query m g : String) (bs₁ bs₂ : List String)
    (h₁ : ∀ m' ∈ bs₁, m' = original_model ∨ attemptFails (call m' user_query))
    (hm : m ≠ original_model) (hcall : call m user_query = Except.ok g)
    (hok : ¬ strContains failureSentinel g) :
    (try_with_backup_models_list call store original_model user_query
      (bs₁ ++ m :: bs₂)).prompt = g ∧
    (try_with_backup_models_list call store original_model user_query
      (bs₁ ++ m :: bs₂)).called =
        bs₁.filter (fun x => x != original_model) ++ [m] := by
  rw [sweep_first_success call store original_model user_query m g bs₂ hm
    hcall hok bs₁ h₁]
  exact ⟨rfl, rfl⟩

/-- Witness for C9: on the list
`["primary", "backup-one", "backup-two", "backup-three"]` with primary
`"primary"`, the sweep skips `"primary"`, calls the failing `"backup-one"`,
stops at `"backup-two"`, and never calls `"backup-three"`. -/
theorem backup_sweep_order_witness :
    (try_with_backup_models_list callSecondBackupGood storeEmpty "primary"
      "query" (["primary", "backup-one"] ++ "backup-two" ::
        ["backup-three"])).prompt = "GOOD PROMPT" ∧
    (try_with_backup_models_list callSecondBackupGood storeEmpty "primary"
      "query" (["primary", "backup-one"] ++ "backup-two" ::
        ["backup-three"])).called =
      (["primary", "backup-one"].filter (fun x => x != "primary")) ++
        ["backup-two"] :=
  backup_sweep_order_skip_first_success callSecondBackupGood storeEmpty
    "primary" "query" "backup-two" "GOOD PROMPT" ["primary", "backup-one"]
    ["backup-three"] (by decide) (by decide) rfl (by decide)

/-- C10: failure of a completion attempt is detected by substring
containment of "Error generating prompt": any text containing the phrase —
including a genuine generation that merely mentions it — is discarded: the
orchestrator then delegates to the backup sweep, and inside the sweep such a
model's text is dropped in favour of the rest of the list (or ultimately the
fallback). -/
theorem sentinel_substring_discards :
    (∀ (call : String → String → Except Unit String)
        (store : String → Option String) (model user_query g : String),
      call model (enhance_user_query user_query) = Except.ok g →
      strContains failureSentinel g →
      generate_extraction_prompt call store model user_query =
        ⟨(try_with_backup_models call store model
            (enhance_user_query user_query)).prompt,
         (try_with_backup_models call store model
            (enhance_user_query user_query)).finalModel⟩) ∧
    (∀ (call : String → String → Except Unit String)
        (store : String → Option String)
        (original_model user_query m g : String) (rest : List String),
      m ≠ original_model → call m user_query = Except.ok g →
      strContains failureSentinel g →
      (try_with_backup_models_list call store original_model user_query
        (m :: rest)).prompt =
      (try_with_backup_models_list call store original_model user_query
        rest).prompt) := by
  constructor
  · intro call store model user_query g hcall hg
    exact gen_primary_fails call store model user_query (by rw [hcall]; exact hg)
  · intro call store original_model user_query m g rest hm hcall hg
    simp [try_with_backup_models_list, hm, hcall, hg]

/-- Witness for C10: a genuinely successful primary completion whose prose
mentions the sentinel phrase is discarded and the sweep outcome is returned
instead. -/
theorem sentinel_substring_discards_witness :
    generate_extraction_prompt callMentionsSentinel storeEmpty
        OPENROUTER_MODEL "task" =
      ⟨(try_with_backup_models callMentionsSentinel storeEmpty OPENROUTER_MODEL
          (enhance_user_query "task")).prompt,
       (try_with_backup_models callMentionsSentinel storeEmpty OPENROUTER_MODEL
          (enhance_user_query "task")).finalModel⟩ :=
  sentinel_substring_discards.1 callMentionsSentinel storeEmpty
    OPENROUTER_MODEL "task" "A user guide to the Error generating prompt message"
    rfl (by decide)

end MetaPromptGen

